import Mathlib

/-!
Shallow embedding of the agentic-RAG repository pieces that the claims
concern: the ReAct planner (src/planning/react_planner.py), the CoT planner
(src/planning/cot_planner.py), the planning-answer extraction of the base
agent (src/agents/base_agent.py) and the aggregator agent
(src/agents/aggregator_agent.py).

Python strings are modelled as Lean `String` values, but every operation the
code uses (strip, split, replace, containment, startswith, lower, upper,
join) is re-implemented structurally over `String.data` so that concrete
runs reduce inside the kernel.  A model call (`llm_call`, or the synthesis
call of the aggregator) is modelled as `String → Except String String`: the
`.error` constructor models a raised exception and its message.
-/

/-- Character 39, the ASCII single-quote used in several source strings. -/
def pysq : String := ⟨[Char.ofNat 39]⟩

/-- Python sequence `s[i]`-free helpers: whitespace test used by `str.strip`. -/
def pyws : Char → Bool := Char.isWhitespace

/-- Python `str.strip()`: drop whitespace from both ends. -/
def pystrip (s : String) : String :=
  ⟨((s.data.dropWhile pyws).reverse.dropWhile pyws).reverse⟩

/-- Python `needle in hay` on strings: substring containment. -/
def pycontains (hay needle : String) : Bool :=
  decide (needle.data <:+: hay.data)

/-- Python `s.startswith(pre)`. -/
def pystartswith (s pre : String) : Bool :=
  pre.data.isPrefixOf s.data

/-- Python `s.lower()`. -/
def pylower (s : String) : String := ⟨s.data.map Char.toLower⟩

/-- Python `s.upper()`. -/
def pyupper (s : String) : String := ⟨s.data.map Char.toUpper⟩

/-- Split a character list at the leftmost occurrence of `sep`: returns the
part before the separator and the part after it, or `none` when `sep` does
not occur. -/
def breakOn (sep : List Char) : List Char → Option (List Char × List Char)
  | [] => if sep.isPrefixOf ([] : List Char) then some ([], []) else none
  | c :: rest =>
    if sep.isPrefixOf (c :: rest) then some ([], (c :: rest).drop sep.length)
    else
      match breakOn sep rest with
      | none => none
      | some (pre, post) => some (c :: pre, post)

/-- Fuel-indexed worker for Python `str.split(sep)`; the fuel `l.length`
always suffices for a non-empty separator. -/
def pysplitAux (sep : List Char) : Nat → List Char → List (List Char)
  | 0, l => [l]
  | fuel + 1, l =>
    match breakOn sep l with
    | none => [l]
    | some (pre, post) => pre :: pysplitAux sep fuel post

/-- Python `s.split(sep)` for a non-empty separator. -/
def pysplit (sep s : String) : List String :=
  (pysplitAux sep.data s.data.length s.data).map (fun l => ⟨l⟩)

/-- Python `s.split(sep, 1)`: split at the first occurrence only. -/
def pysplit1 (sep s : String) : List String :=
  match breakOn sep.data s.data with
  | none => [s]
  | some (pre, post) => [⟨pre⟩, ⟨post⟩]

/-- Fuel-indexed worker for Python `str.replace` (all occurrences,
left-to-right, non-overlapping). -/
def pyreplaceAux (pat rep : List Char) : Nat → List Char → List Char
  | 0, l => l
  | fuel + 1, l =>
    match breakOn pat l with
    | none => l
    | some (pre, post) => pre ++ rep ++ pyreplaceAux pat rep fuel post

/-- Python `s.replace(pat, rep)` for a non-empty pattern. -/
def pyreplace (s pat rep : String) : String :=
  ⟨pyreplaceAux pat.data rep.data s.data.length s.data⟩

/-- Python `sep.join(parts)`. -/
def joinSep (sep : String) : List String → String
  | [] => ""
  | [x] => x
  | x :: y :: rest => x ++ sep ++ joinSep sep (y :: rest)

/-- Python truthiness of an optional string (`if context:`): not `None` and
not empty. -/
def pytruthy (o : Option String) : Bool := o.getD "" ≠ ""

/-- Python `l[-n:]`: the last `n` elements (all of them when fewer). -/
def lastN (n : Nat) (l : List α) : List α := l.drop (l.length - n)

/-- Python `dict[k] = v` on a string-keyed dict rendered as an association
list: an existing binding for `k` is overwritten in place, otherwise the new
binding is appended (insertion order, as in CPython dicts). -/
def dictInsert {α : Type} (m : List (String × α)) (k : String) (v : α) :
    List (String × α) :=
  if m.any (fun kv => kv.1 == k) then
    m.map (fun kv => if kv.1 == k then (k, v) else kv)
  else m ++ [(k, v)]

/-- Python `d.get(key, default)` for a string-valued entry whose stored
value may itself be Python `None` (`some v` = key present with value `v`,
where `v : Option String` and `none` is Python `None`): the default is used
only when the key is absent, not when the stored value is `None`. -/
def pyDictGet (stored : Option (Option String)) (default : String) :
    Option String :=
  match stored with
  | some v => v
  | none => some default

/-! ## ReAct planner (src/planning/react_planner.py) -/

/-- One entry of the ReAct step trace.  The Python code represents steps as
dicts `{"type": ActionType..., ...}`; the four shapes that actually occur
are modelled as constructors (`thought`/`action`/`finalAnswer` are produced
by `_parse_react_response`, `observation` is appended by the loop). -/
inductive RStep where
  | thought (content : String)
  | action (thought action input : String)
  | observation (content : String) (iteration : Nat)
  | finalAnswer (content : String)
  deriving DecidableEq, Repr

/-- The parsed keyword arguments handed to a tool callable:
`json.loads(action_input)` when it parses, `{"query": action_input}` when
it does not, `{}` when the input is empty. -/
inductive ToolParams where
  | emptyParams
  | jsonParams (raw : String)
  | queryParams (input : String)
  deriving DecidableEq, Repr

/-- A registered tool dict.  `parameters = none` models the `"parameters"`
key being absent; `function = none` models a falsy `"function"` entry.  The
callable takes the parsed params and either returns `str(result)` or raises
(`Except.error` carries `str(e)`). -/
structure Tool where
  name : String
  description : String := ""
  parameters : Option String := none
  function : Option (ToolParams → Except String String) := none

/-- Planner state: `tool_map` is the dict `{tool["name"]: tool}`. -/
structure ReActPlanner where
  max_iterations : Nat := 10
  tools : List Tool := []
  tool_map : List (String × Tool) := []

/-- `ReActPlanner.__init__`: builds `tool_map` from the tool list by dict
comprehension (later tools with the same name overwrite earlier ones). -/
def mkReActPlanner (max_iterations : Nat) (tools : List Tool) : ReActPlanner :=
  { max_iterations := max_iterations
    tools := tools
    tool_map := tools.foldl (fun m t => dictInsert m t.name t) [] }

/-- The prompt lines contributed by one tool in `_build_react_prompt`. -/
def tool_prompt_lines (t : Tool) : List String :=
  ["- " ++ t.name ++ ": " ++ t.description] ++
    (match t.parameters with
     | some p => ["  Parameters: " ++ p]
     | none => [])

/-- The prompt lines contributed by one of the last three steps in
`_build_react_prompt` (final-answer steps match no branch of the chain). -/
def step_prompt_lines : RStep → List String
  | .thought c => ["Thought: " ++ c]
  | .action _ a i => ["Action: " ++ a, "Action Input: " ++ i]
  | .observation c _ => ["Observation: " ++ c]
  | .finalAnswer _ => []

/-- `ReActPlanner._build_react_prompt`.  The Python method also receives the
`observations` list but never reads it. -/
def build_react_prompt (tools : List Tool) (query context : String)
    (steps : List RStep) (_observations : List String) : String :=
  joinSep "\n"
    (["You are a helpful assistant that uses the ReAct (Reasoning + Acting) methodology.",
      "You can think, take actions using tools, and observe results.",
      "",
      "Available tools:"]
     ++ (tools.map tool_prompt_lines).flatten
     ++ ["",
         "Format your responses as:",
         "Thought: <your reasoning>",
         "Action: <tool_name>",
         "Action Input: <tool_parameters>",
         "Observation: <result>",
         "",
         "When you have the final answer, use:",
         "Final Answer: <your answer>",
         ""]
     ++ (if context ≠ "" then ["Context: " ++ context, ""] else [])
     ++ ["Question: " ++ query, ""]
     ++ (if steps ≠ [] then
           ["Previous steps:"] ++ ((lastN 3 steps).map step_prompt_lines).flatten ++ [""]
         else [])
     ++ ["Your response:"])

/-- `response.split("Action:")[0]` helper used by the parser below. -/
def String.splitOnActionHead (s : String) : String :=
  (pysplit "Action:" s).headD ""

/-- `action_text.split("Observation:")[0]` helper used by the parser below. -/
def String.splitOnObservationHead (s : String) : String :=
  (pysplit "Observation:" s).headD ""

/-- `ReActPlanner._parse_react_response`. -/
def parse_react_response (response : String) : RStep :=
  let r := pystrip response
  if pystartswith r "Final Answer:" then
    .finalAnswer (pystrip (pyreplace r "Final Answer:" ""))
  else
    let thought_part :=
      if pycontains r "Thought:" then
        pystrip (((pysplit "Thought:" r).getD 1 "").splitOnActionHead)
      else ""
    let act : Option String × Option String :=
      if pycontains r "Action:" then
        let action_line :=
          pystrip (((pysplit "Action:" r).getD 1 "").splitOnObservationHead)
        if pycontains action_line "Action Input:" then
          let parts := pysplit "Action Input:" action_line
          (some (pystrip (parts.headD "")), some (pystrip (parts.getD 1 "")))
        else (some action_line, none)
      else (none, none)
    match act with
    | (some a, inp) =>
      if a ≠ "" then .action thought_part a (inp.getD "")
      else .thought (if thought_part ≠ "" then thought_part else r)
    | (none, _) => .thought (if thought_part ≠ "" then thought_part else r)

/-- The params computation of `_execute_action`: `json.loads` is standard
library code, so whether a given input parses as JSON is abstracted into the
predicate `jsonOk`. -/
def parse_tool_params (jsonOk : String → Bool) (action_input : String) :
    ToolParams :=
  if action_input = "" then .emptyParams
  else if jsonOk action_input then .jsonParams action_input
  else .queryParams action_input

/-- `ReActPlanner._execute_action`.  Every failure path is rendered as an
observation string; the function is total, so tool invocation never throws
to the planner. -/
def execute_action (jsonOk : String → Bool) (tool_map : List (String × Tool))
    (action_name action_input : String) : String :=
  match tool_map.lookup action_name with
  | none => "Error: Tool " ++ pysq ++ action_name ++ pysq ++ " not found"
  | some tool =>
    match tool.function with
    | none => "Error: Tool " ++ pysq ++ action_name ++ pysq ++ " has no implementation"
    | some tool_func =>
      match tool_func (parse_tool_params jsonOk action_input) with
      | .ok result => result
      | .error e => "Error executing " ++ action_name ++ ": " ++ e

/-- The dict returned by `ReActPlanner.plan`.  `status := none` models the
`"status"` key being absent (it is present only in the exhausted path). -/
structure ReActResult where
  query : String
  steps : List RStep
  final_answer : Option String
  iterations : Nat
  status : Option String := none
  deriving Repr

/-- The `for iteration in range(self.max_iterations)` loop of
`ReActPlanner.plan`, with the remaining iteration count as structural fuel.
The only exception source inside the `try` block is the model call
(`_parse_react_response` and `_execute_action` are total), so the `except`
branch is entered exactly on `llm_call` errors. -/
def reactLoopAux (jsonOk : String → Bool) (p : ReActPlanner)
    (llm_call : String → Except String String) (query context : String) :
    Nat → Nat → List RStep → List String → ReActResult
  | 0, _, steps, _ =>
    { query := query
      steps := steps
      final_answer := none
      iterations := p.max_iterations
      status := some "max_iterations_reached" }
  | fuel + 1, iteration, steps, observations =>
    let prompt := build_react_prompt p.tools query context steps observations
    match llm_call prompt with
    | .error e =>
      reactLoopAux jsonOk p llm_call query context fuel (iteration + 1)
        (steps ++ [.observation ("Error: " ++ e) (iteration + 1)]) observations
    | .ok response =>
      let step := parse_react_response response
      match step with
      | .finalAnswer content =>
        { query := query
          steps := steps ++ [step]
          final_answer := some content
          iterations := iteration + 1 }
      | .action _ a inp =>
        let observation := execute_action jsonOk p.tool_map a inp
        reactLoopAux jsonOk p llm_call query context fuel (iteration + 1)
          (steps ++ [step, .observation observation (iteration + 1)])
          (observations ++ [observation])
      | _ =>
        reactLoopAux jsonOk p llm_call query context fuel (iteration + 1)
          (steps ++ [step]) observations

/-- `ReActPlanner.plan` (the `llm_call is None` guard raises and is outside
the claims; `context or ""` is `Option.getD`). -/
def ReActPlanner.plan (jsonOk : String → Bool) (p : ReActPlanner)
    (query : String) (context : Option String)
    (llm_call : String → Except String String) : ReActResult :=
  reactLoopAux jsonOk p llm_call query (context.getD "") p.max_iterations 0 [] []

/-- `ReActPlanner.add_tool`: appends to the tool list and overwrites the
name binding in `tool_map`. -/
def ReActPlanner.add_tool (p : ReActPlanner) (tool : Tool) : ReActPlanner :=
  { p with
    tools := p.tools ++ [tool]
    tool_map := dictInsert p.tool_map tool.name tool }

/-- `ReActPlanner.get_tools`. -/
def ReActPlanner.get_tools (p : ReActPlanner) : List Tool := p.tools

/-- Whether a parsed step is a final answer (`step["type"] == FINAL_ANSWER`). -/
def is_final_answer_step : RStep → Bool
  | .finalAnswer _ => true
  | _ => false

/-! ## Base agent planning-answer extraction (src/agents/base_agent.py) -/

/-- The default string of `_process_with_planning`
(`"I couldn't find a complete answer."`). -/
def couldnt_answer : String := "I couldn" ++ pysq ++ "t find a complete answer."

/-- `plan.get("final_answer", "I couldn't find a complete answer.")` for a
ReAct plan.  Both return paths of `ReActPlanner.plan` store the
`"final_answer"` key (with the Python value `None` in the exhausted path),
so the stored entry is always `some r.final_answer`. -/
def extract_planned_answer_react (r : ReActResult) : Option String :=
  pyDictGet (some r.final_answer) couldnt_answer

/-! ## CoT planner (src/planning/cot_planner.py) -/

/-- One entry of the CoT reasoning trace: the dict
`{"step": n, "type": t, "content": c, "is_conclusion": b}` (`is_conclusion`
is read back with `.get("is_conclusion", False)`, so the absent key of
reflection and error steps is modelled by the default `false`). -/
structure CStep where
  step : Nat
  type : String
  content : String
  is_conclusion : Bool := false
  deriving DecidableEq, Repr

/-- Planner configuration. -/
structure CoTPlanner where
  max_steps : Nat := 10
  enable_reflection : Bool := true

/-- The dict returned by `CoTPlanner.plan`; `status := none` models the
`"status"` key being absent (present only in the exhausted path). -/
structure CotResult where
  query : String
  reasoning_steps : List CStep
  conclusion : Option String
  total_steps : Nat
  status : Option String := none
  deriving DecidableEq, Repr

/-- `CoTPlanner._parse_cot_response`. -/
def parse_cot_response (response : String) (step_num : Nat) : CStep :=
  let r := pystrip response
  if pycontains r "Conclusion:" || pystartswith r "Conclusion" then
    { step := step_num + 1
      type := "conclusion"
      content := pystrip ((pysplit "Conclusion:" r).getLastD "")
      is_conclusion := true }
  else
    let step_content :=
      if pystartswith r ("Step " ++ toString (step_num + 1) ++ ":") then
        pystrip ((pysplit1 ":" r).getD 1 "")
      else if pycontains r "Step" then
        let parts := pysplit1 "Step" r
        if parts.length > 1 then
          let step_part := pysplit1 ":" (parts.getD 1 "")
          if step_part.length > 1 then pystrip (step_part.getD 1 "") else r
        else r
      else r
    { step := step_num + 1
      type := "reasoning"
      content := step_content
      is_conclusion := false }

/-- `CoTPlanner._build_initial_prompt`. -/
def build_initial_prompt (query : String) (context : Option String) : String :=
  joinSep "\n"
    (["You are a helpful assistant that uses Chain-of-Thought reasoning.",
      "Break down complex problems into smaller steps and reason through them step by step.",
      "",
      "Format your reasoning as:",
      "Step 1: <your reasoning>",
      "Step 2: <your reasoning>",
      "...",
      "Conclusion: <final answer>",
      ""]
     ++ (if pytruthy context then ["Context: " ++ context.getD "", ""] else [])
     ++ ["Question: " ++ query,
         "",
         "Begin your reasoning:"])

/-- `CoTPlanner._build_next_step_prompt`.  The Python method also receives
the current step but never reads it. -/
def build_next_step_prompt (query context : String)
    (previous_steps : List CStep) (_current_step : CStep) : String :=
  joinSep "\n"
    (["Continue your Chain-of-Thought reasoning.",
      "",
      "Question: " ++ query,
      ""]
     ++ (if context ≠ "" then ["Context: " ++ context ++ "\n"] else [])
     ++ ["Previous reasoning steps:"]
     ++ ((lastN 3 previous_steps).filter (fun s => s.type != "reflection")).map
          (fun s => "Step " ++ toString s.step ++ ": " ++ s.content)
     ++ ["",
         "What is the next step in your reasoning?"])

/-- The prompt built inside `CoTPlanner._reflect_on_progress`. -/
def build_reflection_prompt (steps : List CStep) : String :=
  "Review the following reasoning steps and provide a brief reflection:\n\n"
    ++ joinSep ""
        ((lastN 3 steps).map
          (fun s => "Step " ++ toString s.step ++ ": " ++ s.content ++ "\n"))
    ++ "\nReflection:"

/-- `CoTPlanner._reflect_on_progress`: empty trace yields `None`; a raised
model call is caught and yields `None`; otherwise the stripped reflection
text is returned. -/
def reflect_on_progress (steps : List CStep)
    (llm_call : String → Except String String) : Option String :=
  if steps = [] then none
  else
    match llm_call (build_reflection_prompt steps) with
    | .ok reflection => some (pystrip reflection)
    | .error _ => none

/-- The outcome of one iteration of the `CoTPlanner.plan` loop body: either
the function returns (a conclusion step was parsed), or the loop continues
with updated trace and prompt. -/
inductive CotOutcome where
  | finished (result : CotResult)
  | next (reasoning_steps : List CStep) (prompt : String)
  deriving Repr

/-- One iteration of the `CoTPlanner.plan` loop body.  The only exception
source inside the `try` block is the main model call
(`_parse_cot_response` and `_build_next_step_prompt` are total and
`_reflect_on_progress` catches its own model-call exception), so the
`except` branch is entered exactly on `llm_call` errors; it appends an
error step and leaves the prompt unchanged.  A reflection step is appended
only when reflection is enabled, `step_num` is a positive multiple of 3,
and the reflection result is truthy (non-`None` and non-empty). -/
def cotStep (p : CoTPlanner) (llm_call : String → Except String String)
    (query current_understanding : String) (step_num : Nat)
    (reasoning_steps : List CStep) (prompt : String) : CotOutcome :=
  match llm_call prompt with
  | .error e =>
    .next (reasoning_steps ++
      [{ step := step_num + 1, type := "error", content := "Error: " ++ e }]) prompt
  | .ok response =>
    let step := parse_cot_response response step_num
    let steps1 := reasoning_steps ++ [step]
    if step.is_conclusion then
      .finished
        { query := query
          reasoning_steps := steps1
          conclusion := some step.content
          total_steps := step_num + 1 }
    else
      let prompt1 := build_next_step_prompt query current_understanding steps1 step
      if p.enable_reflection && decide (0 < step_num) && decide (step_num % 3 = 0) then
        match reflect_on_progress steps1 llm_call with
        | some reflection =>
          if reflection ≠ "" then
            .next (steps1 ++
              [{ step := step_num + 1, type := "reflection", content := reflection }]) prompt1
          else .next steps1 prompt1
        | none => .next steps1 prompt1
      else .next steps1 prompt1

/-- The `for step_num in range(self.max_steps)` loop of `CoTPlanner.plan`,
with the remaining step count as structural fuel. -/
def cotLoopAux (p : CoTPlanner) (llm_call : String → Except String String)
    (query current_understanding : String) :
    Nat → Nat → List CStep → String → CotResult
  | 0, _, reasoning_steps, _ =>
    { query := query
      reasoning_steps := reasoning_steps
      conclusion := none
      total_steps := p.max_steps
      status := some "max_steps_reached" }
  | fuel + 1, step_num, reasoning_steps, prompt =>
    match cotStep p llm_call query current_understanding step_num reasoning_steps prompt with
    | .finished r => r
    | .next steps1 prompt1 =>
      cotLoopAux p llm_call query current_understanding fuel (step_num + 1) steps1 prompt1

/-- `CoTPlanner.plan`. -/
def CoTPlanner.plan (p : CoTPlanner) (query : String) (context : Option String)
    (llm_call : String → Except String String) : CotResult :=
  cotLoopAux p llm_call query (context.getD "") p.max_steps 0 []
    (build_initial_prompt query context)

/-- `plan.get("conclusion", "I couldn't find a complete answer.")` for a CoT
plan; both return paths of `CoTPlanner.plan` store the `"conclusion"` key. -/
def extract_planned_answer_cot (r : CotResult) : Option String :=
  pyDictGet (some r.conclusion) couldnt_answer

/-! ## Aggregator agent (src/agents/aggregator_agent.py) -/

/-- The keyword tables of `AggregatorAgent._select_agents`. -/
def local_keywords : List String := ["document", "file", "local", "data"]

def search_keywords : List String :=
  ["current", "latest", "recent", "news", "web", "internet", "online", "search"]

def cloud_keywords : List String := ["cloud", "s3", "gcs", "storage", "remote"]

def snowflake_keywords : List String :=
  ["snowflake", "data warehouse", "sql", "database", "query", "table", "schema"]

/-- `any(keyword in query_lower for keyword in kws)`. -/
def matches_any (query_lower : String) (kws : List String) : Bool :=
  kws.any (fun k => pycontains query_lower k)

/-- `AggregatorAgent._select_agents`, returning the selected agent names in
dict insertion order; `has_snowflake` models `self.snowflake_agent` being
configured. -/
def select_agents (has_snowflake : Bool) (query : String) : List String :=
  let query_lower := pylower query
  let selected :=
    (if matches_any query_lower local_keywords then ["local"] else []) ++
    (if matches_any query_lower search_keywords then ["search"] else []) ++
    (if matches_any query_lower cloud_keywords then ["cloud"] else []) ++
    (if has_snowflake && matches_any query_lower snowflake_keywords then
      ["snowflake"] else [])
  if selected = [] then ["local", "search"] else selected

/-- An individual agent response dict as read by `_synthesize_responses`:
`success` via `.get("success", False)`, `error` via
`.get("error", "Unknown error")`, `answer` via
`.get("answer", "No answer provided")`; `aggregated_by` is the key the
aggregator writes into the dict it passes through. -/
structure AgentResp where
  success : Bool := false
  answer : Option String := none
  error : Option String := none
  agent : Option String := none
  aggregated_by : Option String := none
  deriving Inhabited, DecidableEq, Repr

/-- The dict returned by `_synthesize_responses` (union of the keys of its
three return shapes; absent keys are `none`). -/
structure SynthResult where
  success : Bool
  answer : Option String := none
  error : Option String := none
  agent : Option String := none
  aggregated_by : Option String := none
  source_agents : Option (List String) := none
  agent_responses : Option (List (String × AgentResp)) := none
  deriving DecidableEq, Repr

/-- Passing an agent response through with `response["aggregated_by"] = tag`
(the single-agent and fallback paths). -/
def resp_to_result (r : AgentResp) (tag : String) : SynthResult :=
  { success := r.success
    answer := r.answer
    error := r.error
    agent := r.agent
    aggregated_by := some tag }

/-- The aggregate error string of the no-successful-responses path. -/
def no_success_error (agent_responses : List (String × AgentResp)) : String :=
  "No agents provided successful responses. Errors: " ++
    joinSep "; "
      (agent_responses.map (fun p => p.1 ++ ": " ++ p.2.error.getD "Unknown error"))

/-- The synthesis prompt built for two or more successful responses. -/
def build_synthesis_prompt (query : String)
    (successful : List (String × AgentResp)) : String :=
  joinSep "\n"
    (["You are synthesizing responses from multiple specialized agents.",
      "Original question: " ++ query,
      "",
      "Agent responses:"]
     ++ (successful.map (fun p =>
          ["", pyupper p.1 ++ " Agent:", p.2.answer.getD "No answer provided"])).flatten
     ++ ["",
         "Synthesize these responses into a comprehensive, coherent answer.",
         "If there are conflicts, note them. If information is complementary, combine it."])

/-- `AggregatorAgent._synthesize_responses`.  The synthesis model call
(`self.client.chat.completions.create` with the fixed system description)
is modelled by `synth_call` on the user prompt; `.error` models a raised
exception.  Python dict iteration order is the insertion order of
`agent_responses`. -/
def synthesize_responses (synth_call : String → Except String String)
    (query : String) (agent_responses : List (String × AgentResp)) : SynthResult :=
  let successful_responses := agent_responses.filter (fun p => p.2.success)
  if successful_responses = [] then
    { success := false
      error := some (no_success_error agent_responses)
      agent_responses := some agent_responses }
  else if successful_responses.length = 1 then
    resp_to_result (successful_responses.headD default).2 "single_agent"
  else
    match synth_call (build_synthesis_prompt query successful_responses) with
    | .ok synthesized_answer =>
      { success := true
        answer := some synthesized_answer
        agent := some "aggregator_agent"
        aggregated_by := some "multiple_agents"
        source_agents := some (successful_responses.map (fun p => p.1))
        agent_responses := some successful_responses }
    | .error _ =>
      resp_to_result (successful_responses.headD default).2 "fallback"

/-! ## Concrete fixtures used by witnesses and counterexamples -/

/-- First registration of a tool named calc. -/
def calc_v1 : Tool := { name := "calc", description := "adds numbers" }

/-- Second registration of a tool named calc. -/
def calc_v2 : Tool := { name := "calc", description := "multiplies numbers" }

/-- Two failing agent responses, as in the spec example. -/
def rs_failures : List (String × AgentResp) :=
  [("A", { error := some "x" }), ("B", { error := some "y" })]

/-- Two successful agent responses for the fallback scenario. -/
def rs_successes : List (String × AgentResp) :=
  [("A", { success := true, answer := some "ansA" }),
   ("B", { success := true, answer := some "ansB" })]

/-- A model-call function whose reflection calls fail and whose main calls
return a plain reasoning sentence (reflection prompts are the only prompts
starting with Review). -/
def reflection_failing_llm (s : String) : Except String String :=
  if pystartswith s "Review" then Except.error "boom" else Except.ok "keep thinking"

/-! ## Support lemmas -/

/-- Stripping yields an infix of the original character list. -/
theorem pystrip_data_isInfix (s : String) : (pystrip s).data <:+: s.data := by
  have hA : s.data.dropWhile pyws <:+ s.data := List.dropWhile_suffix pyws
  have hB : (s.data.dropWhile pyws).reverse.dropWhile pyws <:+
      (s.data.dropWhile pyws).reverse := List.dropWhile_suffix pyws
  obtain ⟨t, ht⟩ := hB
  have hBA : ((s.data.dropWhile pyws).reverse.dropWhile pyws).reverse <+:
      s.data.dropWhile pyws :=
    ⟨t.reverse, by rw [← List.reverse_append, ht, List.reverse_reverse]⟩
  exact hBA.isInfix.trans hA.isInfix

/-- If the stripped response starts with a marker, the raw response contains
the marker as a substring. -/
theorem marker_mem_of_strip_startswith {r m : String}
    (h : pystartswith (pystrip r) m = true) : pycontains r m = true := by
  have hp : m.data <+: (pystrip r).data :=
    List.isPrefixOf_iff_prefix.mp h
  exact decide_eq_true (hp.isInfix.trans (pystrip_data_isInfix r))

/-- A response that does not contain the marker is never parsed as a final
answer. -/
theorem parse_ne_final {r : String}
    (h : pycontains r "Final Answer:" = false) :
    ∀ c, parse_react_response r ≠ RStep.finalAnswer c := by
  intro c hc
  unfold parse_react_response at hc
  cases hs : pystartswith (pystrip r) "Final Answer:" with
  | true => rw [marker_mem_of_strip_startswith hs] at h; exact Bool.noConfusion h
  | false =>
    simp only [hs, Bool.false_eq_true, if_false] at hc
    split at hc
    · split at hc <;> exact RStep.noConfusion hc
    · exact RStep.noConfusion hc

/-- When the model never produces a final-answer response, every run of the
ReAct loop ends in the exhausted return, whatever the accumulated state. -/
theorem reactLoopAux_exhausts (jsonOk : String → Bool) (p : ReActPlanner)
    (llm_call : String → Except String String) (query context : String)
    (h : ∀ prompt r, llm_call prompt = .ok r → pycontains r "Final Answer:" = false) :
    ∀ (fuel iteration : Nat) (steps : List RStep) (observations : List String),
      (reactLoopAux jsonOk p llm_call query context fuel iteration steps
          observations).final_answer = none ∧
      (reactLoopAux jsonOk p llm_call query context fuel iteration steps
          observations).iterations = p.max_iterations ∧
      (reactLoopAux jsonOk p llm_call query context fuel iteration steps
          observations).status = some "max_iterations_reached" := by
  intro fuel
  induction fuel with
  | zero => intro iteration steps observations; exact ⟨rfl, rfl, rfl⟩
  | succ fuel ih =>
    intro iteration steps observations
    simp only [reactLoopAux]
    cases hr : llm_call (build_react_prompt p.tools query context steps observations) with
    | error e => exact ih _ _ _
    | ok response =>
      simp only []
      cases hp : parse_react_response response with
      | finalAnswer c => exact absurd hp (parse_ne_final (h _ _ hr) c)
      | thought c => simp only [hp]; exact ih _ _ _
      | action t a i => simp only [hp]; exact ih _ _ _
      | observation c n => simp only [hp]; exact ih _ _ _

/-- C1: for every configured `max_iterations = N` with `N ≥ 1` and every
model-call function whose (successfully returned) responses never contain
the string Final Answer colon, `ReActPlanner.plan` terminates after exactly
`N` iterations and returns `final_answer = none` (Python `None`),
`iterations = N` and status `max_iterations_reached`. -/
theorem C1_react_exhaustion (jsonOk : String → Bool) (p : ReActPlanner)
    (query : String) (context : Option String)
    (llm_call : String → Except String String)
    (hN : 1 ≤ p.max_iterations)
    (h : ∀ prompt r, llm_call prompt = .ok r → pycontains r "Final Answer:" = false) :
    (ReActPlanner.plan jsonOk p query context llm_call).final_answer = none ∧
    (ReActPlanner.plan jsonOk p query context llm_call).iterations = p.max_iterations ∧
    (ReActPlanner.plan jsonOk p query context llm_call).status =
      some "max_iterations_reached" := by
  unfold ReActPlanner.plan
  exact reactLoopAux_exhausts jsonOk p llm_call query (context.getD "") h
    p.max_iterations 0 [] []

/-- Witness for C1 at a concrete planner and model: two iterations, the
model always answers a plain greeting. -/
theorem C1_react_exhaustion_witness :
    1 ≤ ({ max_iterations := 2 } : ReActPlanner).max_iterations ∧
    ((ReActPlanner.plan (fun _ => false) { max_iterations := 2 } "q" none
        (fun _ => Except.ok "hello")).final_answer = none ∧
     (ReActPlanner.plan (fun _ => false) { max_iterations := 2 } "q" none
        (fun _ => Except.ok "hello")).iterations = 2 ∧
     (ReActPlanner.plan (fun _ => false) { max_iterations := 2 } "q" none
        (fun _ => Except.ok "hello")).status = some "max_iterations_reached") :=
  ⟨by decide,
   C1_react_exhaustion (fun _ => false) { max_iterations := 2 } "q" none
     (fun _ => Except.ok "hello") (by decide)
     (fun prompt r hr => by injection hr with h2; subst h2; decide)⟩

/-- C2 counterexample: a response that contains the marker Final Answer
colon at a non-initial position is parsed as a bare thought, not as a
final-answer step, so the claimed at-any-position classification is false. -/
theorem C2_counterexample :
    pycontains "Thought: the Final Answer: is below" "Final Answer:" = true ∧
    parse_react_response "Thought: the Final Answer: is below" =
      RStep.thought "the Final Answer: is below" ∧
    is_final_answer_step
      (parse_react_response "Thought: the Final Answer: is below") = false := by
  refine ⟨by decide, by decide, by decide⟩

/-- C2 amended: a response is classified as a final-answer step exactly when
its stripped text starts with the marker; and when the first model response
parses as a final answer, the planning loop ends on that first iteration
returning that step content. -/
theorem C2_amended_marker_at_start (r : String) :
    (is_final_answer_step (parse_react_response r) =
      pystartswith (pystrip r) "Final Answer:") ∧
    (∀ (jsonOk : String → Bool) (p : ReActPlanner) (query : String)
       (context : Option String) (llm_call : String → Except String String)
       (c : String) (k : Nat),
      p.max_iterations = k + 1 →
      llm_call (build_react_prompt p.tools query (context.getD "") [] []) = .ok r →
      parse_react_response r = .finalAnswer c →
      ReActPlanner.plan jsonOk p query context llm_call =
        { query := query
          steps := [RStep.finalAnswer c]
          final_answer := some c
          iterations := 1 }) := by
  constructor
  · unfold parse_react_response
    cases hs : pystartswith (pystrip r) "Final Answer:" with
    | true => simp only [hs, if_true]; rfl
    | false =>
      simp only [hs, Bool.false_eq_true, if_false]
      split
      · split <;> rfl
      · rfl
  · intro jsonOk p query context llm_call c k hk hr hp
    unfold ReActPlanner.plan
    rw [hk]
    simp only [reactLoopAux, hr, hp]
    rfl

/-- Witness for C2 amended at the response Final Answer colon 42: it is
classified as a final answer and a three-iteration planner returns it on
iteration one. -/
theorem C2_amended_marker_at_start_witness :
    (is_final_answer_step (parse_react_response "Final Answer: 42") =
      pystartswith (pystrip "Final Answer: 42") "Final Answer:") ∧
    ReActPlanner.plan (fun _ => false) { max_iterations := 3 } "q" none
        (fun _ => Except.ok "Final Answer: 42") =
      { query := "q"
        steps := [RStep.finalAnswer "42"]
        final_answer := some "42"
        iterations := 1 } :=
  ⟨(C2_amended_marker_at_start "Final Answer: 42").1,
   (C2_amended_marker_at_start "Final Answer: 42").2 (fun _ => false)
     { max_iterations := 3 } "q" none (fun _ => Except.ok "Final Answer: 42")
     "42" 2 rfl rfl (by decide)⟩

/-- Each loop iteration appends one or two trace entries, so a run of the
loop that ends in the exhausted return grows the trace by at least `fuel`
and at most `2 * fuel` entries. -/
theorem reactLoopAux_steps_bounds (jsonOk : String → Bool) (p : ReActPlanner)
    (llm_call : String → Except String String) (query context : String) :
    ∀ (fuel iteration : Nat) (steps : List RStep) (observations : List String),
      (reactLoopAux jsonOk p llm_call query context fuel iteration steps
          observations).status = some "max_iterations_reached" →
      steps.length + fuel ≤
          (reactLoopAux jsonOk p llm_call query context fuel iteration steps
            observations).steps.length ∧
        (reactLoopAux jsonOk p llm_call query context fuel iteration steps
            observations).steps.length ≤ steps.length + 2 * fuel := by
  intro fuel
  induction fuel with
  | zero => intro iteration steps observations _; simp only [reactLoopAux]; omega
  | succ fuel ih =>
    intro iteration steps observations hst
    simp only [reactLoopAux] at hst ⊢
    cases hr : llm_call (build_react_prompt p.tools query context steps observations) with
    | error e =>
      simp only [hr] at hst ⊢
      have := ih (iteration + 1)
        (steps ++ [.observation ("Error: " ++ e) (iteration + 1)]) observations hst
      simp only [List.length_append, List.length_cons, List.length_nil] at this ⊢
      omega
    | ok response =>
      simp only [hr] at hst ⊢
      cases hp : parse_react_response response with
      | finalAnswer c => simp only [hp] at hst; exact Option.noConfusion hst
      | thought c =>
        simp only [hp] at hst ⊢
        have := ih (iteration + 1) (steps ++ [RStep.thought c]) observations hst
        simp only [List.length_append, List.length_cons, List.length_nil] at this ⊢
        omega
      | action t a i =>
        simp only [hp] at hst ⊢
        have := ih (iteration + 1)
          (steps ++ [RStep.action t a i,
            .observation (execute_action jsonOk p.tool_map a i) (iteration + 1)])
          (observations ++ [execute_action jsonOk p.tool_map a i]) hst
        simp only [List.length_append, List.length_cons, List.length_nil] at this ⊢
        omega
      | observation c n =>
        simp only [hp] at hst ⊢
        have := ih (iteration + 1) (steps ++ [RStep.observation c n]) observations hst
        simp only [List.length_append, List.length_cons, List.length_nil] at this ⊢
        omega

/-- C9 (implicit): one loop iteration appends at most two trace entries (the
parsed step, plus one observation entry exactly when an action is executed;
a failed model call appends a single error observation), so a run of
`ReActPlanner.plan` that exhausts `max_iterations = N` returns a trace of
between `N` and `2 * N` steps, even though the iteration counter never
exceeds `N`. -/
theorem C9_trace_length_bounds (jsonOk : String → Bool) (p : ReActPlanner)
    (query : String) (context : Option String)
    (llm_call : String → Except String String)
    (h : (ReActPlanner.plan jsonOk p query context llm_call).status =
      some "max_iterations_reached") :
    p.max_iterations ≤
        (ReActPlanner.plan jsonOk p query context llm_call).steps.length ∧
      (ReActPlanner.plan jsonOk p query context llm_call).steps.length ≤
        2 * p.max_iterations := by
  unfold ReActPlanner.plan at h ⊢
  have := reactLoopAux_steps_bounds jsonOk p llm_call query (context.getD "")
    p.max_iterations 0 [] [] h
  simpa using this

/-- Witness for C9: a two-iteration run on a tool-calling model; its trace
has four entries, between `N = 2` and `2 * N = 4`. -/
theorem C9_trace_length_bounds_witness :
    (ReActPlanner.plan (fun _ => false) { max_iterations := 2 } "q" none
        (fun _ => Except.ok "Action: calc")).status = some "max_iterations_reached" ∧
    (2 ≤ (ReActPlanner.plan (fun _ => false) { max_iterations := 2 } "q" none
        (fun _ => Except.ok "Action: calc")).steps.length ∧
     (ReActPlanner.plan (fun _ => false) { max_iterations := 2 } "q" none
        (fun _ => Except.ok "Action: calc")).steps.length ≤ 2 * 2) :=
  ⟨by decide,
   C9_trace_length_bounds (fun _ => false) { max_iterations := 2 } "q" none
     (fun _ => Except.ok "Action: calc") (by decide)⟩

/-- C7: tool invocation from the planner never throws (`execute_action` is a
total function into observation strings).  A registered tool whose callable
raises — including on keyword arguments that do not match its parameters —
yields the observation Error executing name colon message, and an
unregistered name yields an error observation that names the missing
tool. -/
theorem C7_tool_errors_become_observations (jsonOk : String → Bool)
    (tool_map : List (String × Tool)) (name input msg : String) (tool : Tool)
    (f : ToolParams → Except String String) :
    (tool_map.lookup name = some tool → tool.function = some f →
      f (parse_tool_params jsonOk input) = .error msg →
      execute_action jsonOk tool_map name input =
        "Error executing " ++ name ++ ": " ++ msg) ∧
    (tool_map.lookup name = none →
      execute_action jsonOk tool_map name input =
          "Error: Tool " ++ pysq ++ name ++ pysq ++ " not found" ∧
        pycontains ("Error: Tool " ++ pysq ++ name ++ pysq ++ " not found")
          name = true) := by
  constructor
  · intro hlook hfn herr
    unfold execute_action
    rw [hlook]
    simp only [hfn, herr]
  · intro hlook
    refine ⟨by unfold execute_action; rw [hlook], ?_⟩
    apply decide_eq_true
    have : ("Error: Tool " ++ pysq ++ name ++ pysq ++ " not found").data =
        ("Error: Tool " ++ pysq).data ++ name.data ++ (pysq ++ " not found").data := by
      simp only [String.data_append, List.append_assoc]
    rw [this]
    exact List.infix_append _ _ _

/-- Witness for C7: a registered calc tool whose callable raises boom, and
an unregistered name. -/
theorem C7_tool_errors_become_observations_witness :
    (execute_action (fun _ => false)
        [("calc", { name := "calc", function := some (fun _ => .error "boom") })]
        "calc" "2+2" = "Error executing " ++ "calc" ++ ": " ++ "boom") ∧
    (execute_action (fun _ => false)
        [("calc", { name := "calc", function := some (fun _ => .error "boom") })]
        "missing" "" =
      "Error: Tool " ++ pysq ++ "missing" ++ pysq ++ " not found") :=
  ⟨(C7_tool_errors_become_observations (fun _ => false)
      [("calc", { name := "calc", function := some (fun _ => .error "boom") })]
      "calc" "2+2" "boom" { name := "calc", function := some (fun _ => .error "boom") }
      (fun _ => .error "boom")).1 rfl rfl rfl,
   ((C7_tool_errors_become_observations (fun _ => false)
      [("calc", { name := "calc", function := some (fun _ => .error "boom") })]
      "missing" "" "boom" { name := "calc", function := some (fun _ => .error "boom") }
      (fun _ => .error "boom")).2 rfl).1⟩

/-- Overwriting insertion: looking up the inserted key finds the new value. -/
theorem lookup_dictInsert {α : Type} (m : List (String × α)) (k : String) (v : α) :
    (dictInsert m k v).lookup k = some v := by
  unfold dictInsert
  split
  case isTrue h =>
    induction m with
    | nil => simp at h
    | cons a m ih =>
      simp only [List.map_cons]
      by_cases hk : a.1 == k
      · have : (if a.1 == k then (k, v) else a) = (k, v) := if_pos hk
        rw [this]
        simp [List.lookup]
      · have hneg : (a.1 == k) = false := by simpa using hk
        have : (if a.1 == k then (k, v) else a) = a := by rw [hneg]; exact rfl
        rw [this]
        have hne : a.1 ≠ k := by simpa using hk
        have hk2 : (k == a.1) = false := by
          simp only [beq_eq_false_iff_ne]
          exact fun hkk => hne hkk.symm
        simp only [List.lookup, hk2]
        apply ih
        simp only [List.any_cons, hneg, Bool.false_or] at h
        exact h
  case isFalse h =>
    induction m with
    | nil => simp [List.lookup]
    | cons a m ih =>
      have ha : (a.1 == k) = false := by
        by_contra hcon
        exact h (by simp [List.any_cons, eq_true_of_ne_false hcon])
      have hk2 : (k == a.1) = false := by
        simp only [beq_eq_false_iff_ne] at ha ⊢
        exact fun hkk => ha hkk.symm
      simp only [List.cons_append, List.lookup, hk2]
      apply ih
      intro hcon
      exact h (by simp only [List.any_cons, hcon, Bool.or_true])

/-- C4 counterexample: after registering two distinct tools both named calc,
the planner keeps two entries for that name in its tool list (the list that
`get_tools` returns and prompts are built from), so the first registration
is not fully overwritten and the registry does not hold exactly one entry
for the name. -/
theorem C4_counterexample :
    ((((mkReActPlanner 10 []).add_tool calc_v1).add_tool
          calc_v2).get_tools.filter (fun t => t.name == "calc")).length ≠ 1 ∧
    (((mkReActPlanner 10 []).add_tool calc_v1).add_tool calc_v2).get_tools =
      [calc_v1, calc_v2] := by
  constructor
  · intro hcon
    simp only [ReActPlanner.add_tool, ReActPlanner.get_tools, mkReActPlanner,
      calc_v1, calc_v2] at hcon
    simp at hcon
  · rfl

/-- C4 amended: registering two tools with the same name in sequence leaves
the second registration as the single binding for that name in the
execution map `tool_map`, while the planner's `tools` list (used by
`get_tools` and prompt building) retains both registrations in order. -/
theorem C4_amended_map_overwritten_list_keeps_both (p : ReActPlanner)
    (t1 t2 : Tool) (hname : t1.name = t2.name) :
    ((p.add_tool t1).add_tool t2).tool_map.lookup t2.name = some t2 ∧
    ((p.add_tool t1).add_tool t2).tools = p.tools ++ [t1, t2] := by
  constructor
  · exact lookup_dictInsert _ t2.name t2
  · simp [ReActPlanner.add_tool]

/-- Witness for C4 amended at the two concrete calc registrations. -/
theorem C4_amended_map_overwritten_list_keeps_both_witness :
    (((mkReActPlanner 10 []).add_tool calc_v1).add_tool
        calc_v2).tool_map.lookup calc_v2.name = some calc_v2 ∧
    (((mkReActPlanner 10 []).add_tool calc_v1).add_tool calc_v2).tools =
      (mkReActPlanner 10 []).tools ++ [calc_v1, calc_v2] :=
  C4_amended_map_overwritten_list_keeps_both (mkReActPlanner 10 [])
    calc_v1 calc_v2 rfl

/-- Every element of a joined list is a substring of the join. -/
theorem joinSep_mem_isInfix {sep : String} {l : List String} {x : String}
    (hx : x ∈ l) : x.data <:+: (joinSep sep l).data := by
  induction l with
  | nil => cases hx
  | cons y rest ih =>
    cases rest with
    | nil =>
      rcases List.mem_singleton.mp hx with rfl
      exact List.infix_refl _
    | cons z rest2 =>
      rcases List.mem_cons.mp hx with rfl | hx2
      · show x.data <:+: (x ++ sep ++ joinSep sep (z :: rest2)).data
        rw [String.data_append, String.data_append, List.append_assoc]
        exact (List.prefix_append x.data _).isInfix
      · have hinner := ih hx2
        show x.data <:+: (y ++ sep ++ joinSep sep (z :: rest2)).data
        rw [String.data_append, String.data_append]
        have hsuf : (joinSep sep (z :: rest2)).data <:+
            y.data ++ sep.data ++ (joinSep sep (z :: rest2)).data :=
          ⟨y.data ++ sep.data, rfl⟩
        exact hinner.trans hsuf.isInfix

/-- C5: with zero successful agent responses the aggregator returns an
aggregate failure whose error string is the joined list of the individual
agent errors, each rendered as name colon message and joined by
semicolon-space; in particular it contains every such rendering. -/
theorem C5_aggregate_failure (synth_call : String → Except String String)
    (query : String) (rs : List (String × AgentResp))
    (h : ∀ p ∈ rs, p.2.success = false) :
    (synthesize_responses synth_call query rs).success = false ∧
    (synthesize_responses synth_call query rs).error =
      some (no_success_error rs) ∧
    ∀ p ∈ rs, pycontains (no_success_error rs)
      (p.1 ++ ": " ++ p.2.error.getD "Unknown error") = true := by
  have hfil : rs.filter (fun p => p.2.success) = [] :=
    List.filter_eq_nil_iff.mpr (fun p hp => by simp [h p hp])
  refine ⟨?_, ?_, ?_⟩
  · unfold synthesize_responses
    rw [hfil]
    rfl
  · unfold synthesize_responses
    rw [hfil]
    rfl
  · intro p hp
    apply decide_eq_true
    have hmem : (p.1 ++ ": " ++ p.2.error.getD "Unknown error") ∈
        rs.map (fun q => q.1 ++ ": " ++ q.2.error.getD "Unknown error") :=
      List.mem_map_of_mem _ hp
    have hinner := @joinSep_mem_isInfix "; " _ _ hmem
    unfold no_success_error
    rw [String.data_append]
    exact hinner.trans ⟨"No agents provided successful responses. Errors: ".data, [], by simp⟩

/-- Witness for C5 at the two failing responses A with error x and B with
error y: both renderings occur in the aggregate error string. -/
theorem C5_aggregate_failure_witness :
    (synthesize_responses (fun _ => Except.error "down") "q" rs_failures).success
        = false ∧
    (synthesize_responses (fun _ => Except.error "down") "q" rs_failures).error
        = some (no_success_error rs_failures) ∧
    pycontains (no_success_error rs_failures) ("A" ++ ": " ++ "x") = true ∧
    pycontains (no_success_error rs_failures) ("B" ++ ": " ++ "y") = true :=
  ⟨(C5_aggregate_failure (fun _ => Except.error "down") "q" rs_failures
      (by decide)).1,
   (C5_aggregate_failure (fun _ => Except.error "down") "q" rs_failures
      (by decide)).2.1,
   (C5_aggregate_failure (fun _ => Except.error "down") "q" rs_failures
      (by decide)).2.2 ("A", { error := some "x" }) (by decide),
   (C5_aggregate_failure (fun _ => Except.error "down") "q" rs_failures
      (by decide)).2.2 ("B", { error := some "y" }) (by decide)⟩

/-- C6: with two or more successful responses, a raised synthesis model
call does not fail the aggregator: it returns the first successful response
in iteration order, tagged aggregated-by fallback. -/
theorem C6_synthesis_fallback (synth_call : String → Except String String)
    (query : String) (rs : List (String × AgentResp))
    (p1 p2 : String × AgentResp) (rest : List (String × AgentResp)) (e : String)
    (hfil : rs.filter (fun p => p.2.success) = p1 :: p2 :: rest)
    (hsynth : synth_call (build_synthesis_prompt query (p1 :: p2 :: rest)) =
      .error e) :
    synthesize_responses synth_call query rs = resp_to_result p1.2 "fallback" ∧
    p1.2.success = true ∧
    (synthesize_responses synth_call query rs).aggregated_by = some "fallback" ∧
    (synthesize_responses synth_call query rs).answer = p1.2.answer := by
  have hsucc : p1.2.success = true := by
    have hmem : p1 ∈ rs.filter (fun p => p.2.success) := by
      rw [hfil]; exact List.mem_cons_self _ _
    exact (List.mem_filter.mp hmem).2
  have hmain : synthesize_responses synth_call query rs =
      resp_to_result p1.2 "fallback" := by
    unfold synthesize_responses
    rw [hfil]
    have h1 : ((p1 :: p2 :: rest) = ([] : List (String × AgentResp))) = False := by
      simp
    have h2 : ((p1 :: p2 :: rest).length = 1) = False := by
      simp only [List.length_cons, eq_iff_iff, iff_false]
      omega
    simp only [h1, h2, if_false, hsynth]
    rfl
  refine ⟨hmain, hsucc, ?_, ?_⟩ <;> rw [hmain] <;> rfl

/-- Witness for C6: two successful responses and a synthesis call that
always raises; the first response comes back tagged fallback. -/
theorem C6_synthesis_fallback_witness :
    synthesize_responses (fun _ => Except.error "boom") "q" rs_successes =
      resp_to_result ("A", { success := true, answer := some "ansA" }).2
        "fallback" ∧
    (synthesize_responses (fun _ => Except.error "boom") "q"
        rs_successes).aggregated_by = some "fallback" :=
  ⟨(C6_synthesis_fallback (fun _ => Except.error "boom") "q" rs_successes
      ("A", { success := true, answer := some "ansA" })
      ("B", { success := true, answer := some "ansB" }) [] "boom"
      (by decide) rfl).1,
   (C6_synthesis_fallback (fun _ => Except.error "boom") "q" rs_successes
      ("A", { success := true, answer := some "ansA" })
      ("B", { success := true, answer := some "ansB" }) [] "boom"
      (by decide) rfl).2.2.1⟩

/-- C8: agent selection is a pure function of the query (calling it twice
gives the same set), its result is never empty, and when no keyword table
matches it defaults to the local and search agents. -/
theorem C8_selection_deterministic_nonempty :
    (∀ (hs : Bool) (q : String), select_agents hs q = select_agents hs q) ∧
    (∀ (hs : Bool) (q : String), select_agents hs q ≠ []) ∧
    (∀ (hs : Bool) (q : String),
      matches_any (pylower q) local_keywords = false →
      matches_any (pylower q) search_keywords = false →
      matches_any (pylower q) cloud_keywords = false →
      (hs && matches_any (pylower q) snowflake_keywords) = false →
      select_agents hs q = ["local", "search"]) := by
  have haux : ∀ l : List String, (if l = [] then ["local", "search"] else l) ≠ [] := by
    intro l
    split
    · simp
    · assumption
  refine ⟨fun hs q => rfl, ?_, ?_⟩
  · intro hs q
    exact haux _
  · intro hs q h1 h2 h3 h4
    unfold select_agents
    simp only [h1, h2, h3, h4, Bool.false_eq_true, if_false, List.append_nil,
      List.nil_append]
    rfl

/-- Witness for C8 at the keywordless query hi: the default set comes back,
twice identically and non-empty. -/
theorem C8_selection_deterministic_nonempty_witness :
    select_agents false "hi" = select_agents false "hi" ∧
    select_agents false "hi" ≠ [] ∧
    select_agents false "hi" = ["local", "search"] :=
  ⟨C8_selection_deterministic_nonempty.1 false "hi",
   C8_selection_deterministic_nonempty.2.1 false "hi",
   C8_selection_deterministic_nonempty.2.2 false "hi"
     (by decide) (by decide) (by decide) (by decide)⟩

/-- C10 (implicit): a raised reflection model call is swallowed inside
`_reflect_on_progress`, which returns `None`; at a reflection-eligible step
of the CoT loop this appends no reflection step and no error step — the
iteration appends exactly the parsed reasoning step and the loop continues
with the regular next-step prompt.  (A reflection step is appended only
when the reflection call succeeds with a truthy result.) -/
theorem C10_reflection_failure_swallowed :
    (∀ (steps : List CStep) (llm_call : String → Except String String)
       (e : String),
      steps ≠ [] → llm_call (build_reflection_prompt steps) = .error e →
      reflect_on_progress steps llm_call = none) ∧
    (∀ (p : CoTPlanner) (llm_call : String → Except String String)
       (query cu : String) (step_num : Nat) (steps : List CStep)
       (prompt r e : String),
      p.enable_reflection = true → 0 < step_num → step_num % 3 = 0 →
      llm_call prompt = .ok r →
      (parse_cot_response r step_num).is_conclusion = false →
      llm_call (build_reflection_prompt
        (steps ++ [parse_cot_response r step_num])) = .error e →
      cotStep p llm_call query cu step_num steps prompt =
        .next (steps ++ [parse_cot_response r step_num])
          (build_next_step_prompt query cu
            (steps ++ [parse_cot_response r step_num])
            (parse_cot_response r step_num))) := by
  have hrefl : ∀ (steps : List CStep) (llm_call : String → Except String String)
      (e : String),
      steps ≠ [] → llm_call (build_reflection_prompt steps) = .error e →
      reflect_on_progress steps llm_call = none := by
    intro steps llm_call e hne herr
    unfold reflect_on_progress
    rw [if_neg hne, herr]
  refine ⟨hrefl, ?_⟩
  intro p llm_call query cu step_num steps prompt r e
  intro hrefl_on h0 h3 hok hconc herr
  unfold cotStep
  rw [hok]
  simp only [hconc, Bool.false_eq_true, if_false]
  have hcond : (p.enable_reflection && decide (0 < step_num) &&
      decide (step_num % 3 = 0)) = true := by
    rw [hrefl_on, decide_eq_true h0, decide_eq_true h3]
    rfl
  simp only [hcond, if_true]
  rw [hrefl (steps ++ [parse_cot_response r step_num]) llm_call e
    (by simp) herr]

/-- Witness for C10: at step 3 with a model that fails exactly on
reflection prompts, one reasoning step is appended and the loop goes on. -/
theorem C10_reflection_failure_swallowed_witness :
    reflect_on_progress
        [{ step := 1, type := "reasoning", content := "a" },
         { step := 4, type := "reasoning", content := "keep thinking" }]
        reflection_failing_llm = none ∧
    cotStep { max_steps := 10 } reflection_failing_llm "q" "" 3
        [{ step := 1, type := "reasoning", content := "a" }] "main" =
      .next
        ([{ step := 1, type := "reasoning", content := "a" }] ++
          [parse_cot_response "keep thinking" 3])
        (build_next_step_prompt "q" ""
          ([{ step := 1, type := "reasoning", content := "a" }] ++
            [parse_cot_response "keep thinking" 3])
          (parse_cot_response "keep thinking" 3)) :=
  ⟨C10_reflection_failure_swallowed.1
     [{ step := 1, type := "reasoning", content := "a" },
      { step := 4, type := "reasoning", content := "keep thinking" }]
     reflection_failing_llm "boom" (by decide) rfl,
   C10_reflection_failure_swallowed.2 { max_steps := 10 }
     reflection_failing_llm "q" "" 3
     [{ step := 1, type := "reasoning", content := "a" }] "main"
     "keep thinking" "boom" rfl (by decide) (by decide) rfl
     (by decide) rfl⟩

/-- C3: the claim (and the code's own default argument) expect the fixed
could-not-find-a-complete-answer string when the planning loop exhausts its
budget, but `dict.get` only falls back when the key is absent and both
planners always store the terminal key (with Python `None`), so the agent
answer is `None` — not the default string.  Evaluated at concrete exhausted
ReAct and CoT runs. -/
theorem C3_exhausted_answer_is_none :
    extract_planned_answer_react
        (ReActPlanner.plan (fun _ => false) { max_iterations := 1 } "q" none
          (fun _ => Except.ok "hello")) = none ∧
    extract_planned_answer_cot
        (CoTPlanner.plan { max_steps := 1 } "q" none
          (fun _ => Except.ok "thinking")) = none ∧
    (none : Option String) ≠ some couldnt_answer := by
  refine ⟨by decide, by decide, by decide⟩
